import Mathlib

/-
Verification of the natural-language specification of the Bloxorz game core
(bloxorzgame.py) against a shallow embedding of its code.

Conventions of the embedding:
* Tiles are the decoder integer values of the source: 0 = empty (X),
  1 = safe (O), 2 = block marker (S), -1 = goal marker (G).
* A decoded map is a list of rows, each a list of tile values, indexed
  [row][col] exactly as self._map in the source.
* A state mirrors the Python value [[x, y], orientation] with orientation
  1 = lying along the x axis, 2 = lying along the y axis, 3 = vertical.
* Python list indexing is modelled by pyGet: a negative index counts from the
  end of the list, an index out of range is an IndexError, modelled as none.
* Functions of the source that can raise are Option- or Except-valued; a none
  or Except.error result models an uncaught Python exception.
* The default decoder (X O S G, space column separator, newline row separator)
  is modelled concretely, as in the spec scenarios.
-/

namespace Bloxorz

/-- A decoded map: rows of tile values, indexed [row][col], as self._map. -/
abbrev GameMap := List (List Int)

/-- A game state [[x, y], orientation] from the source: position (x, y) and
orientation 1 = along the x axis, 2 = along the y axis, 3 = vertical. -/
structure State where
  x : Int
  y : Int
  orient : Int
deriving DecidableEq

/-- Python list indexing: a negative index counts from the end of the list;
an index out of range raises IndexError, modelled as none. -/
def pyGet {α : Type} (l : List α) (i : Int) : Option α :=
  if i < 0 then
    if -i ≤ (l.length : Int) then l.get? (i + l.length).toNat else none
  else l.get? i.toNat

/-- self._map[y][x] with Python indexing semantics (the map is [row][col]). -/
def mapAt (m : GameMap) (y x : Int) : Option Int :=
  match pyGet m y with
  | none => none
  | some row => pyGet row x

/-- validate_state from the source (lines 269-288): the anchor tile
self._map[y][x] must be non-empty; for a flat orientation the adjacent tile
(x+1 for orientation 1, y+1 for orientation 2) must also be non-empty.
A none result models an uncaught IndexError from the lookups. -/
def validate_state (m : GameMap) (st : State) : Option Bool :=
  match mapAt m st.y st.x with
  | none => none
  | some t =>
    if t = 0 then some false
    else if st.orient ≠ 3 then
      match mapAt m (if st.orient = 2 then st.y + 1 else st.y)
                   (if st.orient = 1 then st.x + 1 else st.x) with
      | none => none
      | some t2 => if t2 = 0 then some false else some true
    else some true

/-- state[0][abs d - 1] += disp from the source: index 0 is the x coordinate
and index 1 the y coordinate (direction tokens have abs d in {1, 2}). -/
def addAxis (st : State) (d : Int) (disp : Int) : State :=
  if d.natAbs = 1 then { st with x := st.x + disp } else { st with y := st.y + disp }

/-- The candidate state computed inside pitch_block (lines 197-209): from
vertical, move -2 or +1 along axis abs d and lie down on that axis; from flat,
move -1 or +2 along axis abs d and stand up. -/
def pitchCandidate (st : State) (d : Int) : State :=
  if st.orient = 3 then
    addAxis { st with orient := (d.natAbs : Int) } d (if d < 0 then -2 else 1)
  else
    addAxis { st with orient := 3 } d (if d < 0 then -1 else 2)

/-- The candidate state computed inside roll_block (lines 255-256): one step
along axis abs d in the sign of d; int (d / abs d) is the sign of d. -/
def rollCandidate (st : State) (d : Int) : State :=
  addAxis st d d.sign

/-- pitch_block(d, apply_action) from the source (lines 183-220), as a function
of (map, current state, d, apply_action) returning (return value, new current
state); none models an uncaught exception from validate_state in probe mode. -/
def pitch_block (m : GameMap) (st : State) (d : Int) (apply : Bool) :
    Option (Bool × State) :=
  if st.orient = (d.natAbs : Int) ∨ st.orient = 3 then
    match apply with
    | true => some (true, pitchCandidate st d)
    | false =>
      match validate_state m (pitchCandidate st d) with
      | none => none
      | some v => some (v, st)
  else some (false, st)

/-- roll_block(d, apply_action) from the source (lines 241-267): legal only
when the orientation differs from abs d and from 3 (the source comment: the
block cannot roll in the direction of its orientation when horizontal and in
any direction when vertical). -/
def roll_block (m : GameMap) (st : State) (d : Int) (apply : Bool) :
    Option (Bool × State) :=
  if st.orient ≠ (d.natAbs : Int) ∧ st.orient ≠ 3 then
    match apply with
    | true => some (true, rollCandidate st d)
    | false =>
      match validate_state m (rollCandidate st d) with
      | none => none
      | some v => some (v, st)
  else some (false, st)

/-- goal_test from the source (lines 118-127): walk the goal tuples; on the
first entry whose position equals the state position, return whether its
orientation equals the state orientation; otherwise false. -/
def goal_test (goals : List ((Int × Int) × Int)) (st : State) : Bool :=
  match goals with
  | [] => false
  | g :: rest =>
    if g.1 = (st.x, st.y) then g.2 == st.orient
    else goal_test rest st

/-- Split a character list on the newline separator, like Python str.split. -/
def splitRows (l : List Char) : List (List Char) :=
  match l with
  | [] => [[]]
  | c :: rest =>
    let r := splitRows rest
    if c = '\n' then [] :: r
    else
      match r with
      | [] => [[c]]
      | h :: t => (c :: h) :: t

/-- The default decoder of the source: X, O, S, G map to 0, 1, 2, -1. It is
only applied to characters the validator accepted, so the final catch-all arm
is unreachable on inputs that reach it in the source. -/
def decodeChar (c : Char) : Int :=
  if c = 'X' then 0
  else if c = 'O' then 1
  else if c = 'S' then 2
  else if c = 'G' then -1
  else 0

/-- Decoding of init_map (lines 144-150): strip column separators, split on
the row separator and decode every character. -/
def decodeMap (sm : List Char) : GameMap :=
  (splitRows (sm.filter (fun c => c != ' '))).map (fun row => row.map decodeChar)

/-- validate_map from the source (lines 40-73) for the default decoder:
rectangular after stripping separators, block-marker count strictly between
0 and 3 in the raw text, and no character outside the declared alphabet. -/
def validate_map (sm : List Char) : Bool :=
  let filtered := splitRows (sm.filter (fun c => c != ' '))
  let first := match filtered with | [] => [] | r :: _ => r
  (filtered.all (fun r => r.length == first.length)) &&
  (decide (0 < sm.count 'S') && decide (sm.count 'S' < 3)) &&
  (sm.filter (fun c =>
    !(c == 'X' || c == 'O' || c == 'S' || c == 'G' || c == ' ' || c == '\n'))).isEmpty

/-- Errors of init_map: the explicit invalid-map ValueError of line 141, the
ValueError raised by list.index when the value is absent, and IndexError. -/
inductive PyErr where
  | invalidMap
  | valueError
  | indexError
deriving DecidableEq

/-- Python list.index(v, start): the first index at or after start holding v;
none models the ValueError raised when v does not occur there. -/
def indexFromAux (v : Int) : List Int → Nat → Option Nat
  | [], _ => none
  | a :: rest, i => if a = v then some i else indexFromAux v rest (i + 1)

def indexFrom (row : List Int) (v : Int) (s : Nat) : Option Nat :=
  indexFromAux v (row.drop s) s

/-- The goal-scanning loop of init_map for one row (lines 156-160): run the
count of goal markers many searches, each resuming from the previous index
plus one, starting from index 0. -/
def goalScanAux (row : List Int) : Nat → Nat → Except PyErr (List Nat)
  | 0, _ => .ok []
  | n + 1, i =>
    match indexFrom row (-1) (i + 1) with
    | none => .error .valueError
    | some i2 =>
      match goalScanAux row n i2 with
      | .error e => .error e
      | .ok rest => .ok (i2 :: rest)

def goalScan (row : List Int) : Except PyErr (List Nat) :=
  goalScanAux row (row.count (-1)) 0

/-- The block-marker part of the row scan of init_map (lines 162-178). The
lookup self._map[i][j+1] is taken verbatim from the source, with the row index
i and the column index j+1 (both non-negative, so plain indexing applies). -/
def blockScan (m : GameMap) (j : Nat) (row : List Int)
    (ini : Option ((Int × Int) × Int)) : Except PyErr (Option ((Int × Int) × Int)) :=
  if row.count 2 = 2 then
    match indexFrom row 2 0 with
    | none => .error .valueError
    | some i => .ok (some (((i : Int), (j : Int)), 1))
  else if ini = none ∧ row.count 2 = 1 then
    match indexFrom row 2 0 with
    | none => .error .valueError
    | some i =>
      match (m.get? i).bind (fun r => r.get? (j + 1)) with
      | none => .error .indexError
      | some below => .ok (some (((i : Int), (j : Int)), if below = 2 then 2 else 3))
  else .ok ini

/-- Accumulator of the row scan: the initial placement found so far and the
goal tuples collected so far. -/
structure ScanAcc where
  initial : Option ((Int × Int) × Int)
  goals : List ((Int × Int) × Int)
deriving DecidableEq

/-- One iteration of the row loop of init_map (lines 154-178): goal scan of
the row, then the block-marker scan. -/
def scanRow (m : GameMap) (j : Nat) (row : List Int) (acc : ScanAcc) :
    Except PyErr ScanAcc :=
  match goalScan row with
  | .error e => .error e
  | .ok gs =>
    match blockScan m j row acc.initial with
    | .error e => .error e
    | .ok ini => .ok ⟨ini, acc.goals ++ gs.map (fun i => (((i : Int), (j : Int)), 3))⟩

def scanRows (m : GameMap) (rows : List (List Int)) (j : Nat) (acc : ScanAcc) :
    Except PyErr ScanAcc :=
  match rows with
  | [] => .ok acc
  | row :: rest =>
    match scanRow m j row acc with
    | .error e => .error e
    | .ok acc1 => scanRows m rest (j + 1) acc1

/-- init_map from the source (lines 129-181) for the default decoder: validate
the text (raising the invalid-map error otherwise), decode it, then scan the
rows for goals and the initial placement. The returned pair is (initial,
goals); the initial component is none when no block row was processed. -/
def init_map (sm : List Char) :
    Except PyErr ((Option ((Int × Int) × Int)) × List ((Int × Int) × Int)) :=
  if validate_map sm then
    match scanRows (decodeMap sm) (decodeMap sm) 0 ⟨none, []⟩ with
    | .error e => .error e
    | .ok acc => .ok (acc.initial, acc.goals)
  else .error .invalidMap

/-- The two move operators enumerated by actions(). -/
inductive GameAct where
  | pitch
  | roll
deriving DecidableEq

def runOp (m : GameMap) (st : State) (a : GameAct) (d : Int) (apply : Bool) :
    Option (Bool × State) :=
  match a with
  | .pitch => pitch_block m st d apply
  | .roll => roll_block m st d apply

/-- The action-argument table of actions() (lines 110-112): pitch then roll,
each with the arguments (1, 2, -2, -1) in that order. -/
def allProbes : List (GameAct × Int) :=
  [(.pitch, 1), (.pitch, 2), (.pitch, -2), (.pitch, -1),
   (.roll, 1), (.roll, 2), (.roll, -2), (.roll, -1)]

/-- The probe-mode comprehension of actions(): keep the pairs whose probe
returns true; a raising probe aborts the whole computation. -/
def probeFilter (m : GameMap) (st : State) :
    List (GameAct × Int) → Option (List (GameAct × Int))
  | [] => some []
  | p :: rest =>
    match runOp m st p.1 p.2 false with
    | none => none
    | some (v, _) =>
      match probeFilter m st rest with
      | none => none
      | some r => some (if v then p :: r else r)

/-- actions(state) from the source (lines 99-116): back up self._state, set it
to the query state, probe all eight pairs, restore the backup. The result is
(action list, final self._state). -/
def actions (m : GameMap) (s0 query : State) :
    Option (List (GameAct × Int) × State) :=
  match probeFilter m query allProbes with
  | none => none
  | some l => some (l, s0)

/-- result(state, action) from the source (lines 222-239): back up self._state,
set it to the query state, apply the action in apply mode, read off the result,
restore the backup. The result is (returned state, final self._state). -/
def result (m : GameMap) (s0 query : State) (a : GameAct × Int) :
    Option (State × State) :=
  match runOp m query a.1 a.2 true with
  | none => none
  | some (_, newState) => some (newState, s0)

/-- The coordinate of a state on the axis named by a direction token. -/
def axisCoord (st : State) (d : Int) : Int :=
  if d.natAbs = 1 then st.x else st.y

/-- The coordinate of a state on the axis perpendicular to a direction token. -/
def otherCoord (st : State) (d : Int) : Int :=
  if d.natAbs = 1 then st.y else st.x

/-- A 3 x 3 all-safe map. -/
def safe3 : GameMap := [[1, 1, 1], [1, 1, 1], [1, 1, 1]]

/-- A 5 x 5 all-safe map. -/
def safe5 : GameMap :=
  [[1, 1, 1, 1, 1], [1, 1, 1, 1, 1], [1, 1, 1, 1, 1], [1, 1, 1, 1, 1], [1, 1, 1, 1, 1]]

/-- The decoded map of the text S X X: a block marker next to empty tiles. -/
def rowSXX : GameMap := [[2, 0, 0]]

/-- The decoded map of the text S O over O O. -/
def mapSO : GameMap := [[2, 1], [1, 1]]

/-- The text G O S: one row with a goal marker in column 0. -/
def textGOS : List Char := ['G', ' ', 'O', ' ', 'S']

/-- The text S X over S X: two block markers stacked in column 0. -/
def textSXSX : List Char := ['S', ' ', 'X', '\n', 'S', ' ', 'X']

/-- The text X over S: a lone block marker in the last row. -/
def textXS : List Char := ['X', '\n', 'S']

/-- Claim C1, counterexample: on an all-safe map with the block vertical at
(1, 1), roll_block in probe mode with d = 1 returns false outright, while the
state validator's verdict on the shifted candidate (2, 1) vertical is true, so
the probe does not return the validator's verdict as the claim states. -/
theorem roll_vertical_probe_differs :
    roll_block safe3 ⟨1, 1, 3⟩ 1 false = some (false, ⟨1, 1, 3⟩) ∧
    validate_state safe3 ⟨2, 1, 3⟩ = some true := by decide

/-- Claim C1, amended: for every state whose orientation is vertical (3),
roll_block returns false outright for every direction and in both probe and
apply mode; the roll precondition requires a flat orientation whose axis
differs from abs d. -/
theorem roll_vertical_always_false (m : GameMap) (st : State) (d : Int)
    (ap : Bool) (h : st.orient = 3) :
    roll_block m st d ap = some (false, st) := by
  have hnc : ¬ (st.orient ≠ (d.natAbs : Int) ∧ st.orient ≠ 3) := fun hc => hc.2 h
  unfold roll_block
  rw [if_neg hnc]

/-- Witness for roll_vertical_always_false at a concrete vertical state. -/
theorem roll_vertical_always_false_witness :
    roll_block safe3 ⟨1, 1, 3⟩ 2 true = some (false, ⟨1, 1, 3⟩) :=
  roll_vertical_always_false safe3 ⟨1, 1, 3⟩ 2 true rfl

/-- Claim C2, counterexample: on the map S X X, pitch_block in apply mode from
the vertical state at (0, 0) with d = 1 commits the flat state at (1, 0) and
returns true, yet validate_state rejects the committed state (it rests on
empty tiles): apply mode performs no validation. -/
theorem apply_commits_onto_empty :
    pitch_block rowSXX ⟨0, 0, 3⟩ 1 true = some (true, ⟨1, 0, 1⟩) ∧
    validate_state rowSXX ⟨1, 0, 1⟩ = some false := by decide

/-- Claim C2, amended: apply mode commits exactly the candidate that probe
mode validates, so whenever the corresponding probe returned true, the state
committed by a successful apply satisfies validate_state; without a prior
successful probe, apply mode may commit an invalid placement. -/
theorem probe_success_then_apply_valid (m : GameMap) (st : State) (d : Int) :
    (pitch_block m st d false = some (true, st) →
      pitch_block m st d true = some (true, pitchCandidate st d) ∧
      validate_state m (pitchCandidate st d) = some true) ∧
    (roll_block m st d false = some (true, st) →
      roll_block m st d true = some (true, rollCandidate st d) ∧
      validate_state m (rollCandidate st d) = some true) := by
  constructor
  · intro h
    by_cases hc : st.orient = (d.natAbs : Int) ∨ st.orient = 3
    · simp only [pitch_block, if_pos hc] at h ⊢
      refine ⟨trivial, ?_⟩
      cases hval : validate_state m (pitchCandidate st d) with
      | none => rw [hval] at h; cases h
      | some v =>
        rw [hval] at h
        injection h with h2
        injection h2 with h3 h4
        rw [h3]
    · simp only [pitch_block, if_neg hc] at h
      injection h with h2
      injection h2 with h3 h4
      cases h3
  · intro h
    by_cases hc : st.orient ≠ (d.natAbs : Int) ∧ st.orient ≠ 3
    · simp only [roll_block, if_pos hc] at h ⊢
      refine ⟨trivial, ?_⟩
      cases hval : validate_state m (rollCandidate st d) with
      | none => rw [hval] at h; cases h
      | some v =>
        rw [hval] at h
        injection h with h2
        injection h2 with h3 h4
        rw [h3]
    · simp only [roll_block, if_neg hc] at h
      injection h with h2
      injection h2 with h3 h4
      cases h3

/-- Witness for probe_success_then_apply_valid: on the all-safe 5 x 5 map the
pitch probe from the vertical center succeeds and the roll probe from a flat
state succeeds, so both applies commit validated states. -/
theorem probe_success_then_apply_valid_witness :
    (pitch_block safe5 ⟨2, 2, 3⟩ 1 true = some (true, pitchCandidate ⟨2, 2, 3⟩ 1) ∧
      validate_state safe5 (pitchCandidate ⟨2, 2, 3⟩ 1) = some true) ∧
    (roll_block safe5 ⟨2, 2, 1⟩ 2 true = some (true, rollCandidate ⟨2, 2, 1⟩ 2) ∧
      validate_state safe5 (rollCandidate ⟨2, 2, 1⟩ 2) = some true) :=
  ⟨(probe_success_then_apply_valid safe5 ⟨2, 2, 3⟩ 1).1 (by decide),
   (probe_success_then_apply_valid safe5 ⟨2, 2, 1⟩ 2).2 (by decide)⟩

/-- Claim C3: on the map S O over O O the vertical state at (0, 0) lies on the
map (validate_state accepts it), yet pitch_block in probe mode with d = 2
builds the candidate at (0, 1) lying along the y axis, whose second tile
lookup self._map[2][0] is past the last row: the source raises an uncaught
IndexError (modelled none) instead of returning false. -/
theorem probe_raises_at_boundary :
    validate_state mapSO ⟨0, 0, 3⟩ = some true ∧
    pitch_block mapSO ⟨0, 0, 3⟩ 2 false = none := by decide

/-- Claim C4: the text G O S passes validate_map, but the goal scan of
init_map starts its first search at index 0 + 1 and so never finds the goal
marker in column 0; list.index then raises an uncaught ValueError (modelled
Except.error valueError) instead of producing the goal entry ((0, 0), 3). -/
theorem goal_at_column_zero_error :
    validate_map textGOS = true ∧
    init_map textGOS = Except.error PyErr.valueError := ⟨rfl, rfl⟩

/-- Claim C5: the text S X over S X stacks two block markers in column 0, so
the tile below the first marker is a block marker and the claim requires
orientation 2 (along the y axis); the source instead checks the transposed
cell self._map[i][j+1] = self._map[0][1], an empty tile, and parses the
initial state as vertical, returning ((0, 0), 3). -/
theorem stacked_markers_parsed_vertical :
    validate_map textSXSX = true ∧
    init_map textSXSX = Except.ok (some ((0, 0), 3), []) := ⟨rfl, rfl⟩

/-- Claim C6: the text X over S passes validate_map, yet init_map raises an
uncaught IndexError (modelled Except.error indexError, distinct from the
invalid-map error): the transposed lookup self._map[i][j+1] = self._map[0][2]
indexes past the end of the first row. -/
theorem accepted_map_raises_index_error :
    validate_map textXS = true ∧
    init_map textXS = Except.error PyErr.indexError := ⟨rfl, rfl⟩

/-- Claim C7: the vertical state anchored at (0, -1) extends beyond the map
boundary, yet validate_state returns true: the Python negative index -1 wraps
around to the last row, so an off-map placement is validated against the
wrapped tile instead of being rejected. -/
theorem negative_anchor_wraps_valid :
    validate_state mapSO ⟨0, -1, 3⟩ = some true := by decide

/-- Claim C8: whenever the pitch precondition holds for a direction token d in
{-2, -1, 1, 2}, apply mode commits the candidate, and the candidate satisfies
the transition arithmetic: from vertical the new orientation is axis abs d and
the coordinate on that axis changes by -2 (d negative) or +1 (d positive);
from flat along axis abs d the new orientation is vertical and the coordinate
changes by -1 (d negative) or +2 (d positive); the perpendicular coordinate is
unchanged in both cases. -/
theorem pitch_transition_arithmetic (m : GameMap) (st : State) (d : Int)
    (hd : d = -2 ∨ d = -1 ∨ d = 1 ∨ d = 2)
    (hleg : st.orient = (d.natAbs : Int) ∨ st.orient = 3) :
    pitch_block m st d true = some (true, pitchCandidate st d) ∧
    (st.orient = 3 →
      (pitchCandidate st d).orient = (d.natAbs : Int) ∧
      axisCoord (pitchCandidate st d) d = axisCoord st d + (if d < 0 then -2 else 1) ∧
      otherCoord (pitchCandidate st d) d = otherCoord st d) ∧
    (st.orient = (d.natAbs : Int) →
      (pitchCandidate st d).orient = 3 ∧
      axisCoord (pitchCandidate st d) d = axisCoord st d + (if d < 0 then -1 else 2) ∧
      otherCoord (pitchCandidate st d) d = otherCoord st d) := by
  refine ⟨by simp only [pitch_block, if_pos hleg], ?_, ?_⟩
  · intro h3
    rcases hd with rfl | rfl | rfl | rfl <;>
      simp [pitchCandidate, addAxis, axisCoord, otherCoord, h3,
        (by decide : ¬ (((-2 : Int)).natAbs = 1)),
        (by decide : ((-1 : Int)).natAbs = 1),
        (by decide : ((1 : Int)).natAbs = 1),
        (by decide : ¬ ((2 : Int)).natAbs = 1),
        (by decide : ((-2 : Int)) < 0),
        (by decide : ((-1 : Int)) < 0),
        (by decide : ¬ ((1 : Int)) < 0),
        (by decide : ¬ ((2 : Int)) < 0)]
  · intro hf
    have h3 : ¬ st.orient = 3 := by
      rcases hd with rfl | rfl | rfl | rfl <;> rw [hf] <;> decide
    rcases hd with rfl | rfl | rfl | rfl <;>
      simp [pitchCandidate, addAxis, axisCoord, otherCoord, h3,
        (by decide : ¬ (((-2 : Int)).natAbs = 1)),
        (by decide : ((-1 : Int)).natAbs = 1),
        (by decide : ((1 : Int)).natAbs = 1),
        (by decide : ¬ ((2 : Int)).natAbs = 1),
        (by decide : ((-2 : Int)) < 0),
        (by decide : ((-1 : Int)) < 0),
        (by decide : ¬ ((1 : Int)) < 0),
        (by decide : ¬ ((2 : Int)) < 0)]

/-- Witness for pitch_transition_arithmetic at the vertical state (0, 0) with
direction 1 on a one-tile map. -/
theorem pitch_transition_arithmetic_witness :
    pitch_block [[1]] ⟨0, 0, 3⟩ 1 true = some (true, pitchCandidate ⟨0, 0, 3⟩ 1) ∧
    ((⟨0, 0, 3⟩ : State).orient = 3 →
      (pitchCandidate ⟨0, 0, 3⟩ 1).orient = (((1 : Int)).natAbs : Int) ∧
      axisCoord (pitchCandidate ⟨0, 0, 3⟩ 1) 1 =
        axisCoord ⟨0, 0, 3⟩ 1 + (if (1 : Int) < 0 then -2 else 1) ∧
      otherCoord (pitchCandidate ⟨0, 0, 3⟩ 1) 1 = otherCoord ⟨0, 0, 3⟩ 1) ∧
    ((⟨0, 0, 3⟩ : State).orient = (((1 : Int)).natAbs : Int) →
      (pitchCandidate ⟨0, 0, 3⟩ 1).orient = 3 ∧
      axisCoord (pitchCandidate ⟨0, 0, 3⟩ 1) 1 =
        axisCoord ⟨0, 0, 3⟩ 1 + (if (1 : Int) < 0 then -1 else 2) ∧
      otherCoord (pitchCandidate ⟨0, 0, 3⟩ 1) 1 = otherCoord ⟨0, 0, 3⟩ 1) :=
  pitch_transition_arithmetic [[1]] ⟨0, 0, 3⟩ 1 (by decide) (Or.inr rfl)

/-- Helper: blockScan leaves nothing but the initial placement, so the goal
part of the scan accumulator passes through scanRow extended only by entries
built with orientation 3. -/
theorem scanRow_goals_vertical (m : GameMap) (j : Nat) (row : List Int)
    (acc acc2 : ScanAcc) (h : scanRow m j row acc = Except.ok acc2)
    (h0 : ∀ g ∈ acc.goals, g.2 = 3) : ∀ g ∈ acc2.goals, g.2 = 3 := by
  unfold scanRow at h
  split at h
  · cases h
  · split at h
    · cases h
    · cases h
      intro g hg
      rcases List.mem_append.mp hg with hg | hg
      · exact h0 g hg
      · rcases List.mem_map.mp hg with ⟨i, hi, rfl⟩
        rfl

/-- Helper: every goal entry accumulated by the row scan has orientation 3. -/
theorem scanRows_goals_vertical (m : GameMap) :
    ∀ (rows : List (List Int)) (j : Nat) (acc acc2 : ScanAcc),
      scanRows m rows j acc = Except.ok acc2 →
      (∀ g ∈ acc.goals, g.2 = 3) → ∀ g ∈ acc2.goals, g.2 = 3 := by
  intro rows
  induction rows with
  | nil =>
    intro j acc acc2 h h0
    simp only [scanRows] at h
    cases h
    exact h0
  | cons row rest ih =>
    intro j acc acc2 h h0
    simp only [scanRows] at h
    split at h
    · cases h
    · rename_i acc1 heq
      exact ih (j + 1) acc1 acc2 h (scanRow_goals_vertical m j row acc acc1 heq h0)

/-- Helper: every goal entry returned by init_map has orientation 3. -/
theorem init_map_goals_vertical :
    ∀ (sm : List Char) (r : (Option ((Int × Int) × Int)) × List ((Int × Int) × Int)),
      init_map sm = Except.ok r → ∀ g ∈ r.2, g.2 = 3 := by
  intro sm r h
  unfold init_map at h
  split at h
  · split at h
    · cases h
    · rename_i acc heq
      cases h
      exact scanRows_goals_vertical (decodeMap sm) (decodeMap sm) 0 ⟨none, []⟩ acc heq
        (fun g hg => absurd hg (List.not_mem_nil g))
  · cases h

/-- Helper: for a goal list whose entries all carry orientation 3, goal_test
holds exactly when some entry matches the position and the state is vertical. -/
theorem goal_test_iff_aux (st : State) :
    ∀ (goals : List ((Int × Int) × Int)), (∀ g ∈ goals, g.2 = 3) →
      (goal_test goals st = true ↔
        ((∃ g ∈ goals, g.1 = (st.x, st.y)) ∧ st.orient = 3)) := by
  intro goals
  induction goals with
  | nil => intro _; simp [goal_test]
  | cons g gs ih =>
    intro h
    have hg3 : g.2 = 3 := h g (List.mem_cons_self g gs)
    have htail : ∀ g2 ∈ gs, g2.2 = 3 := fun g2 hm => h g2 (List.mem_cons_of_mem g hm)
    by_cases hp : g.1 = (st.x, st.y)
    · simp only [goal_test, if_pos hp]
      constructor
      · intro hb
        rw [hg3] at hb
        exact ⟨⟨g, List.mem_cons_self g gs, hp⟩, (eq_of_beq hb).symm⟩
      · rintro ⟨-, ho⟩
        rw [hg3, ho]
        exact beq_self_eq_true 3
    · simp only [goal_test, if_neg hp]
      rw [ih htail]
      constructor
      · rintro ⟨⟨g2, hm, hpos⟩, ho⟩
        exact ⟨⟨g2, List.mem_cons_of_mem g hm, hpos⟩, ho⟩
      · rintro ⟨⟨g2, hm, hpos⟩, ho⟩
        rcases List.mem_cons.mp hm with rfl | hm2
        · exact absurd hpos hp
        · exact ⟨⟨g2, hm2, hpos⟩, ho⟩

/-- Claim C9: every goal set produced by init_map consists of entries with
orientation 3 (vertical), and for any such goal set goal_test holds exactly
when the state position equals some goal position and the orientation is
vertical; in particular it is false for a non-vertical orientation at a goal
position. -/
theorem goal_test_correct :
    (∀ (sm : List Char) (r : (Option ((Int × Int) × Int)) × List ((Int × Int) × Int)),
      init_map sm = Except.ok r → ∀ g ∈ r.2, g.2 = 3) ∧
    (∀ (goals : List ((Int × Int) × Int)) (st : State), (∀ g ∈ goals, g.2 = 3) →
      (goal_test goals st = true ↔
        ((∃ g ∈ goals, g.1 = (st.x, st.y)) ∧ st.orient = 3))) :=
  ⟨init_map_goals_vertical, fun goals st h => goal_test_iff_aux st goals h⟩

/-- Witness for goal_test_correct at a concrete one-goal set and state. -/
theorem goal_test_correct_witness :
    goal_test [((2, 0), 3)] ⟨2, 0, 3⟩ = true ↔
      ((∃ g ∈ [(((2 : Int), (0 : Int)), (3 : Int))], g.1 = ((2 : Int), (0 : Int))) ∧
        (3 : Int) = 3) :=
  goal_test_correct.2 [((2, 0), 3)] ⟨2, 0, 3⟩ (by decide)

/-- Claim C10: after actions and after result return, the instance state cell
(the backed-up self._state) is returned unchanged: both model functions give
back the original current state s0 alongside their result, for every map,
query state and action. -/
theorem actions_result_restore :
    (∀ (m : GameMap) (s0 q : State) (l : List (GameAct × Int)) (s1 : State),
      actions m s0 q = some (l, s1) → s1 = s0) ∧
    (∀ (m : GameMap) (s0 q : State) (a : GameAct × Int) (r s1 : State),
      result m s0 q a = some (r, s1) → s1 = s0) := by
  constructor
  · intro m s0 q l s1 h
    unfold actions at h
    split at h
    · cases h
    · rename_i l2 heq
      injection h with h2
      injection h2 with h3 h4
      exact h4.symm
  · intro m s0 q a r s1 h
    unfold result at h
    split at h
    · cases h
    · rename_i p heq
      injection h with h2
      injection h2 with h3 h4
      exact h4.symm

/-- Witness for actions_result_restore: a concrete enumeration and a concrete
result call on the all-safe 5 x 5 map, both returning the backup unchanged. -/
theorem actions_result_restore_witness :
    ((⟨2, 2, 3⟩ : State) = ⟨2, 2, 3⟩) ∧ ((⟨2, 2, 3⟩ : State) = ⟨2, 2, 3⟩) :=
  ⟨actions_result_restore.1 safe5 ⟨2, 2, 3⟩ ⟨2, 2, 3⟩
      [(GameAct.pitch, 1), (GameAct.pitch, 2), (GameAct.pitch, -2), (GameAct.pitch, -1)]
      ⟨2, 2, 3⟩ (by decide),
   actions_result_restore.2 safe5 ⟨2, 2, 3⟩ ⟨2, 2, 3⟩ (GameAct.pitch, 1)
      ⟨3, 2, 1⟩ ⟨2, 2, 3⟩ (by decide)⟩

end Bloxorz
